import Mathlib

/-!
Shallow embedding of the ransomware.live API client
(`ransomware_client.py`) and its MCP tool adapter
(`mcp_server_ransomware.py`).

Each client operation builds an endpoint path and optional query
parameters and delegates to the request executor `_get`.  We embed the
request-building side of every operation as a pure function producing a
`Request` (or an `Except` when the operation validates an argument
locally), and the response-handling side of `_get` as a function from an
`HttpResponse` to `Except ApiError Json`.
-/

/-- A JSON value, as returned by `response.json()` in the Python client.
Numbers are modelled as integers; none of the verified properties
inspect numeric content. -/
inductive Json where
  | null : Json
  | bool (b : Bool) : Json
  | num (n : Int) : Json
  | str (s : String) : Json
  | arr (elems : List Json) : Json
  | obj (fields : List (String × Json)) : Json

/-- A Python query-parameter value as placed in the `params` dict:
the client passes either strings or ints (`year`). -/
inductive PyVal where
  | str (s : String) : PyVal
  | int (n : Int) : PyVal
  deriving DecidableEq, Repr

/-- The outgoing HTTP GET request built by `_get`: the endpoint path
(appended to the base URL), the API key placed in the `X-API-KEY`
header, and the optional `params` mapping (`None` in Python is `none`
here; an empty dict `{}` is `some []`). -/
structure Request where
  endpoint : String
  api_key : String
  params : Option (List (String × PyVal))
  deriving DecidableEq, Repr

/-- An HTTP response as observed by `_get`: the status code, the raw
body text, and the result of `response.json()` — `some v` when the body
parses as the JSON value `v`, `none` when it does not parse. -/
structure HttpResponse where
  status : Nat
  text : String
  jsonBody : Option Json

/-- The error taxonomy of the client, following the spec's names:
`httpError` is the exception raised by `response.raise_for_status()`
(it carries the status and the response body), `decodeError` is the
`ValueError` raised when a body fails to parse as JSON (it carries the
raw text), and `invalidArgument` is the `ValueError` raised by local
argument validation (it carries the offending value and the allowed
set). -/
inductive ApiError where
  | httpError (status : Nat) (body : String) : ApiError
  | decodeError (text : String) : ApiError
  | invalidArgument (value : String) (allowed : List String) : ApiError
  deriving DecidableEq, Repr

/-- `requests.Response.raise_for_status`: raises `HTTPError` exactly
when the status code is in the 4xx client-error or 5xx server-error
range (`400 <= status < 600`); any other status passes. -/
def raise_for_status (r : HttpResponse) : Except ApiError Unit :=
  if 400 ≤ r.status ∧ r.status < 600 then
    .error (.httpError r.status r.text)
  else
    .ok ()

/-- Request construction performed by `_get(endpoint, api_key, params)`:
the URL is `BASE_URL + endpoint`, headers carry the key, and `params`
is attached as the query mapping. -/
def _get (endpoint : String) (api_key : String)
    (params : Option (List (String × PyVal)) := none) : Request :=
  ⟨endpoint, api_key, params⟩

/-- Response handling performed by `_get` after the request returns:
`response.raise_for_status()` followed by `response.json()`, where a
parse failure is re-raised as `ValueError` carrying `response.text`. -/
def _get_response (r : HttpResponse) : Except ApiError Json :=
  match raise_for_status r with
  | .error e => .error e
  | .ok _ =>
    match r.jsonBody with
    | some v => .ok v
    | none => .error (.decodeError r.text)

/-- The full behaviour of one `_get` call against a server modelled as
a function from the outgoing request to the response it answers. -/
def _get_run (server : Request → HttpResponse) (endpoint : String)
    (api_key : String) (params : Option (List (String × PyVal)) := none) :
    Except ApiError Json :=
  _get_response (server (_get endpoint api_key params))

/-- The list of network calls an operation performs: an operation that
fails local validation (`.error`) dispatches no request; otherwise it
dispatches exactly the one request it built. -/
def networkCalls (x : Except ApiError Request) : List Request :=
  match x with
  | .error _ => []
  | .ok r => [r]

/-- Query lookup on an outgoing request: `none` when the request has no
params mapping or the key is absent from it. -/
def queryLookup (r : Request) (key : String) : Option PyVal :=
  match r.params with
  | none => none
  | some ps => ps.lookup key

/-- Whether the outgoing query string carries the given key at all. -/
def hasQueryKey (r : Request) (key : String) : Bool :=
  (queryLookup r key).isSome

/-- Python's `str.lower()` on the ASCII strings the client handles:
lower-case every character. -/
def py_lower (s : String) : String :=
  ⟨s.data.map Char.toLower⟩

/-- Python's `str.upper()` on the ASCII strings the client handles:
upper-case every character. -/
def py_upper (s : String) : String :=
  ⟨s.data.map Char.toUpper⟩

/-- Python's `f"{n:02d}"`: decimal rendering of `n` left-padded with
zeros to a minimum total width of two, the sign counting toward the
width. -/
def pyFormat02d (n : Int) : String :=
  let sign := if n < 0 then "-" else ""
  let digits := toString n.natAbs
  let width := 2 - sign.length
  let padded :=
    if digits.length < width then
      String.mk (List.replicate (width - digits.length) '0') ++ digits
    else digits
  sign ++ padded

/-- `fetch_csirt_data(country_code, api_key)`:
`_get(f"/csirt/{country_code.upper()}", api_key)`. -/
def fetch_csirt_data (country_code : String) (api_key : String) : Request :=
  _get ("/csirt/" ++ py_upper country_code) api_key

/-- `fetch_ransomware_groups(api_key)`: `_get("/groups", api_key)`. -/
def fetch_ransomware_groups (api_key : String) : Request :=
  _get "/groups" api_key

/-- `fetch_group_data(group_name, api_key)`:
`_get(f"/groups/{group_name.lower()}", api_key)`. -/
def fetch_group_data (group_name : String) (api_key : String) : Request :=
  _get ("/groups/" ++ py_lower group_name) api_key

/-- `fetch_iocs(api_key, ioc_type=None)`:
`endpoint = f"/iocs/{ioc_type}" if ioc_type else "/iocs"`, then
`_get(endpoint, api_key)`.  Python truthiness: `None` and `""` are
falsy, every other string is truthy. -/
def fetch_iocs (api_key : String) (ioc_type : Option String := none) : Request :=
  let endpoint :=
    match ioc_type with
    | some t => if t ≠ "" then "/iocs/" ++ t else "/iocs"
    | none => "/iocs"
  _get endpoint api_key

/-- `fetch_group_iocs(group, api_key, ioc_type=None)`:
`params = {"type": ioc_type} if ioc_type else None`, then
`_get(f"/iocs/{group}", api_key, params)`. -/
def fetch_group_iocs (group : String) (api_key : String)
    (ioc_type : Option String := none) : Request :=
  let params : Option (List (String × PyVal)) :=
    match ioc_type with
    | some t => if t ≠ "" then some [("type", .str t)] else none
    | none => none
  _get ("/iocs/" ++ group) api_key params

/-- `get_akira_iocs(api_key, group_name)`:
`params = {"group_name": group_name}`, then
`_get("/iocs/akira", api_key, params)`. -/
def get_akira_iocs (api_key : String) (group_name : String) : Request :=
  _get "/iocs/akira" api_key (some [("group_name", .str group_name)])

/-- `fetch_press_releases(api_key, year, month, country)`:
`params = {"year": year, "month": f"{month:02d}", "country": country}`,
then `_get("/press/all", api_key, params)`. -/
def fetch_press_releases (api_key : String) (year : Int) (month : Int)
    (country : String) : Request :=
  _get "/press/all" api_key
    (some [("year", .int year), ("month", .str (pyFormat02d month)),
           ("country", .str country)])

/-- `fetch_recent_press(api_key, country)`:
`params = {"country": country}`, then
`_get("/press/recent", api_key, params)`. -/
def fetch_recent_press (api_key : String) (country : String) : Request :=
  _get "/press/recent" api_key (some [("country", .str country)])

/-- `fetch_victims(api_key, group, sector, country, year, month)`:
`params = {"group": group, "sector": sector, "country": country,
"year": year, "month": f"{month:02d}"}`, then
`_get("/victims/", api_key, params)`. -/
def fetch_victims (api_key : String) (group : String) (sector : String)
    (country : String) (year : Int) (month : Int) : Request :=
  _get "/victims/" api_key
    (some [("group", .str group), ("sector", .str sector),
           ("country", .str country), ("year", .int year),
           ("month", .str (pyFormat02d month))])

/-- `fetch_recent_victims(api_key, order="discovered")`: raises
`ValueError` when `order` is not in `{"discovered", "attacked"}`,
otherwise `_get("/victims/recent", api_key, {"order": order})`.
(The source defines this function twice with identical bodies; the
later definition is the one in effect and both agree.) -/
def fetch_recent_victims (api_key : String)
    (order : String := "discovered") : Except ApiError Request :=
  if order = "discovered" ∨ order = "attacked" then
    .ok (_get "/victims/recent" api_key (some [("order", .str order)]))
  else
    .error (.invalidArgument order ["discovered", "attacked"])

/-- `search_victims(api_key, group, sector, country)`:
`params = {"group": group, "sector": sector, "country": country}`, then
`_get("/victims/search", api_key, params)`. -/
def search_victims (api_key : String) (group : String) (sector : String)
    (country : String) : Request :=
  _get "/victims/search" api_key
    (some [("group", .str group), ("sector", .str sector),
           ("country", .str country)])

/-- `fetch_all_victims(api_key)`: `_get("/victims/search", api_key, {})`
— the search path with an empty (but present) params dict.  (Also
defined twice in the source with identical bodies.) -/
def fetch_all_victims (api_key : String) : Request :=
  _get "/victims/search" api_key (some [])

/-- MCP adapter `fetch_iocs_tool(ioc_type="")`: maps the empty string
to `None` and calls `fetch_iocs(API_KEY, ioc_type)`.  The process-wide
`API_KEY` is passed explicitly here. -/
def fetch_iocs_tool (api_key : String) (ioc_type : String := "") : Request :=
  let t : Option String := if ioc_type = "" then none else some ioc_type
  fetch_iocs api_key t

/-- MCP adapter `fetch_group_iocs_tool(group, ioc_type="")`: maps the
empty string to `None` and calls
`fetch_group_iocs(group, API_KEY, ioc_type)`. -/
def fetch_group_iocs_tool (api_key : String) (group : String)
    (ioc_type : String := "") : Request :=
  let t : Option String := if ioc_type = "" then none else some ioc_type
  fetch_group_iocs group api_key t

/-- A concrete server used to witness the request executor's success
path: it answers every request with status 200 and the JSON body
`[1]`. -/
def demoServer : Request → HttpResponse :=
  fun _ => ⟨200, "[1]", some (.arr [.num 1])⟩

/-- C1: for every call to the request executor `_get` (any path,
credential, and optional query), if the response has a 2xx status and
its body parses as JSON, the call returns exactly that parsed JSON
value unchanged. -/
theorem C1_get_returns_parsed_json (server : Request → HttpResponse)
    (endpoint api_key : String) (params : Option (List (String × PyVal)))
    (v : Json)
    (h200 : 200 ≤ (server (_get endpoint api_key params)).status)
    (h299 : (server (_get endpoint api_key params)).status ≤ 299)
    (hjson : (server (_get endpoint api_key params)).jsonBody = some v) :
    _get_run server endpoint api_key params = .ok v := by
  unfold _get_run _get_response raise_for_status
  have hne : ¬ (400 ≤ (server (_get endpoint api_key params)).status ∧
      (server (_get endpoint api_key params)).status < 600) := by omega
  simp [hne, hjson]

/-- Witness for C1 at a concrete server, path, key and body. -/
theorem C1_witness :
    _get_run demoServer "/groups" "key" none = .ok (.arr [.num 1]) :=
  C1_get_returns_parsed_json demoServer "/groups" "key" none
    (.arr [.num 1]) (by decide) (by decide) rfl

/-- Counterexample to C2 as stated: a response with status 304 — outside
the 2xx range — whose body parses as JSON does not fail with `HttpError`;
`raise_for_status` raises only for 4xx/5xx, so the call succeeds and
returns the parsed body. -/
theorem C2_counterexample :
    _get_response ⟨304, "\x7b\x7d", some (.obj [])⟩ = .ok (.obj []) ∧
    _get_response ⟨304, "\x7b\x7d", some (.obj [])⟩ ≠
      .error (.httpError 304 "\x7b\x7d") := by
  refine ⟨rfl, ?_⟩
  intro h
  exact Except.noConfusion h

/-- C2 (amended): a response with status in the 4xx or 5xx range
(400–599) makes `_get` fail with an `HttpError` carrying that status
and the response body; a 2xx response whose body is not valid JSON
makes it fail with a `DecodeError` carrying the raw response text. -/
theorem C2_error_taxonomy :
    (∀ r : HttpResponse, 400 ≤ r.status → r.status ≤ 599 →
      _get_response r = .error (.httpError r.status r.text)) ∧
    (∀ r : HttpResponse, 200 ≤ r.status → r.status ≤ 299 →
      r.jsonBody = none →
      _get_response r = .error (.decodeError r.text)) := by
  constructor
  · intro r h1 h2
    have hlt : 400 ≤ r.status ∧ r.status < 600 := by omega
    unfold _get_response raise_for_status
    simp [hlt]
  · intro r h1 h2 hjson
    have hne : ¬ (400 ≤ r.status ∧ r.status < 600) := by omega
    unfold _get_response raise_for_status
    simp [hne, hjson]

/-- Witness for the amended C2 at a 404 response and at a 200 response
with an unparseable body. -/
theorem C2_witness :
    _get_response ⟨404, "not found", some .null⟩ =
      .error (.httpError 404 "not found") ∧
    _get_response ⟨200, "not json", none⟩ =
      .error (.decodeError "not json") :=
  ⟨C2_error_taxonomy.1 ⟨404, "not found", some .null⟩ (by decide) (by decide),
   C2_error_taxonomy.2 ⟨200, "not json", none⟩ (by decide) (by decide) rfl⟩

/-- C3: `fetch_recent_victims` with an order outside
`{"discovered", "attacked"}` raises `InvalidArgumentError` naming the
allowed set and dispatches zero network calls; with order
`"discovered"` it dispatches exactly one GET to `/victims/recent`
carrying the query parameter `order=discovered`. -/
theorem C3_order_validation :
    (∀ (api_key order : String),
      order ≠ "discovered" → order ≠ "attacked" →
      fetch_recent_victims api_key order =
        .error (.invalidArgument order ["discovered", "attacked"]) ∧
      networkCalls (fetch_recent_victims api_key order) = []) ∧
    (∀ api_key : String,
      networkCalls (fetch_recent_victims api_key "discovered") =
        [⟨"/victims/recent", api_key,
          some [("order", .str "discovered")]⟩]) := by
  constructor
  · intro k o h1 h2
    have hno : ¬ (o = "discovered" ∨ o = "attacked") := by tauto
    constructor
    · simp [fetch_recent_victims, hno]
    · simp [fetch_recent_victims, networkCalls, hno]
  · intro k
    rfl

/-- Witness for C3 at the invalid order `"unknown"` and the valid order
`"discovered"`. -/
theorem C3_witness :
    fetch_recent_victims "key" "unknown" =
      .error (.invalidArgument "unknown" ["discovered", "attacked"]) ∧
    networkCalls (fetch_recent_victims "key" "unknown") = [] ∧
    networkCalls (fetch_recent_victims "key" "discovered") =
      [⟨"/victims/recent", "key", some [("order", .str "discovered")]⟩] :=
  ⟨(C3_order_validation.1 "key" "unknown" (by decide) (by decide)).1,
   (C3_order_validation.1 "key" "unknown" (by decide) (by decide)).2,
   C3_order_validation.2 "key"⟩

/-- C4: calling an operation with its optional filter absent produces a
request whose query carries no key for that filter at all: this holds
for `fetch_group_iocs` with `ioc_type` `None`, for the tool adapter
`fetch_group_iocs_tool` with the empty string, and likewise for
`fetch_iocs` and `fetch_iocs_tool` (whose absent filter leaves the
request with no params mapping at all). -/
theorem C4_optional_filter_omitted :
    (∀ group api_key : String,
      hasQueryKey (fetch_group_iocs group api_key none) "type" = false) ∧
    (∀ group api_key : String,
      hasQueryKey (fetch_group_iocs_tool api_key group "") "type" = false) ∧
    (∀ api_key : String, (fetch_iocs api_key none).params = none) ∧
    (∀ api_key : String, (fetch_iocs_tool api_key "").params = none) :=
  ⟨fun _ _ => rfl, fun _ _ => rfl, fun _ => rfl, fun _ => rfl⟩

/-- C5: `fetch_group_data` issues a GET whose path is `/groups/`
followed by the lower-cased group name; in particular group name
`"LockBit"` yields the path `/groups/lockbit`. -/
theorem C5_group_path_lowercased :
    (∀ (group_name api_key : String),
      fetch_group_data group_name api_key =
        ⟨"/groups/" ++ py_lower group_name, api_key, none⟩) ∧
    (∀ api_key : String,
      (fetch_group_data "LockBit" api_key).endpoint = "/groups/lockbit") :=
  ⟨fun _ _ => rfl, fun _ => rfl⟩

/-- Counterexample to C6 as stated: `fetch_recent_press` takes a
two-letter country code but sends it verbatim as the `country` query
value — passed `"us"`, the outgoing request carries `country=us`, not
`country=US`, and the path contains no upper-cased copy. -/
theorem C6_counterexample :
    fetch_recent_press "key" "us" =
      ⟨"/press/recent", "key", some [("country", PyVal.str "us")]⟩ ∧
    queryLookup (fetch_recent_press "key" "us") "country" ≠
      some (PyVal.str "US") := by
  refine ⟨rfl, ?_⟩
  decide

/-- C6 (amended): only `fetch_csirt_data` upper-cases the country code,
into the request path (`"us"` yields path `/csirt/US`); the operations
that send the country as a query parameter (`fetch_recent_press`,
`fetch_press_releases`, `fetch_victims`, `search_victims`) send the
argument verbatim, unchanged in case. -/
theorem C6_country_case :
    (∀ (country_code api_key : String),
      fetch_csirt_data country_code api_key =
        ⟨"/csirt/" ++ py_upper country_code, api_key, none⟩) ∧
    (∀ api_key : String,
      (fetch_csirt_data "us" api_key).endpoint = "/csirt/US") ∧
    (∀ (api_key country : String),
      queryLookup (fetch_recent_press api_key country) "country" =
        some (.str country)) ∧
    (∀ (api_key country : String) (year month : Int),
      queryLookup (fetch_press_releases api_key year month country)
        "country" = some (.str country)) ∧
    (∀ (api_key group sector country : String) (year month : Int),
      queryLookup (fetch_victims api_key group sector country year month)
        "country" = some (.str country)) ∧
    (∀ (api_key group sector country : String),
      queryLookup (search_victims api_key group sector country)
        "country" = some (.str country)) :=
  ⟨fun _ _ => rfl, fun _ => rfl, fun _ _ => rfl, fun _ _ _ _ => rfl,
   fun _ _ _ _ _ _ => rfl, fun _ _ _ _ => rfl⟩

/-- C7: in `fetch_press_releases` and `fetch_victims`, the outgoing
`month` query value is the month rendered through Python's `02d`
format — decimal, zero-padded to a minimum of two digits; in
particular month `9` is sent as `"09"`. -/
theorem C7_month_zero_padded :
    (∀ (api_key country : String) (year month : Int),
      queryLookup (fetch_press_releases api_key year month country)
        "month" = some (.str (pyFormat02d month))) ∧
    (∀ (api_key group sector country : String) (year month : Int),
      queryLookup (fetch_victims api_key group sector country year month)
        "month" = some (.str (pyFormat02d month))) ∧
    pyFormat02d 9 = "09" :=
  ⟨fun _ _ _ _ => rfl, fun _ _ _ _ _ _ => rfl, by decide⟩

/-- C8: `fetch_all_victims` issues the generic victim-search request —
a GET to the same `/victims/search` path used by `search_victims` —
with an empty (but present) filter mapping, so its query carries no
filter keys at all. -/
theorem C8_fetch_all_victims_composition :
    (∀ api_key : String,
      fetch_all_victims api_key =
        ⟨"/victims/search", api_key, some []⟩) ∧
    (∀ (api_key group sector country : String),
      (fetch_all_victims api_key).endpoint =
        (search_victims api_key group sector country).endpoint) ∧
    (∀ (api_key key : String),
      hasQueryKey (fetch_all_victims api_key) key = false) :=
  ⟨fun _ => rfl, fun _ _ _ _ => rfl, fun _ _ => rfl⟩

/-- C9: `get_akira_iocs` issues a GET to the fixed path `/iocs/akira`
and sends `group_name` as the query parameter `group_name`, never as a
path segment — the path is the same for every group name. -/
theorem C9_akira_query_not_path :
    (∀ (api_key group_name : String),
      get_akira_iocs api_key group_name =
        ⟨"/iocs/akira", api_key,
         some [("group_name", .str group_name)]⟩) ∧
    (∀ (api_key group_name : String),
      (get_akira_iocs api_key group_name).endpoint = "/iocs/akira") ∧
    (∀ (api_key g1 g2 : String),
      (get_akira_iocs api_key g1).endpoint =
        (get_akira_iocs api_key g2).endpoint) :=
  ⟨fun _ _ => rfl, fun _ _ => rfl, fun _ _ _ => rfl⟩

/-- C10: for every non-empty string `t`, `fetch_iocs` with `ioc_type`
`t` and `fetch_group_iocs` for group `t` with no filter build identical
outgoing requests: a GET to `/iocs/` followed by `t` with no query
parameters. -/
theorem C10_iocs_aliasing (api_key t : String) (h : t ≠ "") :
    fetch_iocs api_key (some t) = fetch_group_iocs t api_key none ∧
    fetch_iocs api_key (some t) = ⟨"/iocs/" ++ t, api_key, none⟩ := by
  constructor <;> simp [fetch_iocs, fetch_group_iocs, _get, h]

/-- Witness for C10 at the concrete IOC type / group string
`"domain"`. -/
theorem C10_witness :
    fetch_iocs "key" (some "domain") = fetch_group_iocs "domain" "key" none ∧
    fetch_iocs "key" (some "domain") = ⟨"/iocs/domain", "key", none⟩ :=
  C10_iocs_aliasing "key" "domain" (by decide)
